import Mathlib

/-!
Shallow embedding of the two Ansible modules of `cloudflare_modules`:

* `src/cloudflare_account_instance.py` — registers/deregisters an origin
  (a backend instance) in a Cloudflare load-balancer pool: one GET of the
  account's pool collection, a client-side search by pool id, a mutation of
  the origin list (append for `present`, filter for `absent`), and one PUT
  of `{name, origins}` back to the pool's single-resource URL.
* `src/cloudflare_account_lb_info.py` — lists all load-balancer pools of an
  account: one GET, returning the response's `result` array under `clbs`.

The network is modelled by parameters: the GET of the pool collection is a
`List Pool` (the `result` array of the GET response), and the body the
server answers to the PUT is an opaque `Json` value `putResp`.  Each
operation returns the list of HTTP requests it issued together with either
the module's result or the error it raised, so that claims about "issues no
PUT" and about request bodies are statements about the returned trace.

Python's `None.get(...)` attribute error (hit when the pool lookup finds
nothing) is the distinguished error `ModuleError.nullAttributeFault`;
`CloudflareException` is `ModuleError.cloudflareExc msg` with the exact
message string of the source.
-/

namespace CloudflareModules

/-- Minimal JSON values, the currency of the Python modules' dict payloads. -/
inductive Json where
  | null : Json
  | bool (b : Bool) : Json
  | num (q : Rat) : Json
  | str (s : String) : Json
  | arr (elems : List Json) : Json
  | obj (fields : List (String × Json)) : Json

/-- An origin entry of a pool, the four attributes the registrar reads and
writes (`enabled`, `name`, `weight`, `address`).  `weight` is a float in
Python; no arithmetic is ever performed on it, so it is carried as `Rat`. -/
structure Origin where
  enabled : Bool
  name : String
  weight : Rat
  address : String
deriving Repr, DecidableEq

/-- Serialization of an origin dict, as `json.dumps` lays it out. -/
def Origin.toJson (o : Origin) : Json :=
  Json.obj [("enabled", Json.bool o.enabled), ("name", Json.str o.name),
            ("weight", Json.num o.weight), ("address", Json.str o.address)]

/-- A load-balancer pool as fetched from the API.  The registrar reads only
`id`, `name` and `origins`; the remaining fields are carried so that the
frame claim (the PUT body holds only `name` and `origins`) is not vacuous. -/
structure Pool where
  id : String
  name : String
  origins : List Origin
  enabled : Bool
  minimum_origins : Nat
  check_regions : List String
  notification_email : String
  created_on : String
  modified_on : String
  description : String
deriving Repr, DecidableEq

inductive HttpMethod where
  | GET : HttpMethod
  | PUT : HttpMethod
deriving Repr, DecidableEq

/-- One HTTP request as issued by the modules' `request` helper: the method,
the target URL, and the serialized body (`none` for a GET). -/
structure HttpRequest where
  method : HttpMethod
  url : String
  body : Option Json

/-- The ways a module run terminates abnormally.
`nullAttributeFault` is Python's `AttributeError` raised by
`None.get('name')` when the pool lookup returned `None`;
`cloudflareExc` is `CloudflareException(msg)`;
`failJson` is a direct `module.fail_json` call. -/
inductive ModuleError where
  | nullAttributeFault : ModuleError
  | cloudflareExc (msg : String) : ModuleError
  | failJson (msg : String) : ModuleError
deriving Repr, DecidableEq

/-- `module.exit_json(changed=..., response=...)` of the registrar. -/
structure ExitJson where
  changed : Bool
  response : Json

/-- The registrar's `Cloudflare.__init__`: stores credentials, identifiers,
the desired state, the instance attributes and the (never read) `wait`
flag, and precomputes the collection URL and the single-resource URL. -/
structure Cloudflare where
  base_url : String
  url : String
  pool_id : String
  email : String
  api_key : String
  state : String
  instance_ip : String
  instance_name : String
  instance_weight : Rat
  wait : Bool

def Cloudflare.init (email api_key account_id pool_id state instance_ip
    instance_name : String) (instance_weight : Rat) (wait : Bool) : Cloudflare :=
  let base := "https://api.cloudflare.com/client/v4/accounts/" ++ account_id ++
    "/load_balancers/pools"
  { base_url := base
    url := base ++ "/" ++ pool_id
    pool_id := pool_id
    email := email
    api_key := api_key
    state := state
    instance_ip := instance_ip
    instance_name := instance_name
    instance_weight := instance_weight
    wait := wait }

/-- The GET issued by `request` when `content is None`: collection URL, no body. -/
def Cloudflare.getRequest (cf : Cloudflare) : HttpRequest :=
  { method := HttpMethod.GET, url := cf.base_url, body := none }

/-- The PUT issued by `request` when a body is given: single-resource URL. -/
def Cloudflare.putRequest (cf : Cloudflare) (content : Json) : HttpRequest :=
  { method := HttpMethod.PUT, url := cf.url, body := some content }

/-- `_req_pool_info`, after the GET: client-side linear search of the
`result` array for the first pool whose `id` equals `pool_id`
(`next((item for item in pools if item['id'] == self.pool_id), None)`). -/
def Cloudflare.req_pool_info (cf : Cloudflare) (pools : List Pool) : Option Pool :=
  pools.find? (fun item => item.id == cf.pool_id)

/-- `_get_origin_by_ip`: first origin whose `address` equals `instance_ip`. -/
def Cloudflare.get_origin_by_ip (cf : Cloudflare) (origins : List Origin) :
    Option Origin :=
  origins.find? (fun item => item.address == cf.instance_ip)

/-- The `json.dumps` payload of both PUTs: a dict with exactly the keys
`name` and `origins`. -/
def desiredStateJson (name : String) (origins : List Origin) : Json :=
  Json.obj [("name", Json.str name), ("origins", Json.arr (origins.map Origin.toJson))]

/-- `req_present`.  Fetch the pool (GET); on a missing pool the source reads
`current_state.get('name')` on `None`, which is the null-attribute fault.
If some origin already has `instance_ip` as address, raise the duplicate
`CloudflareException` — no PUT.  Otherwise append the new origin
`{enabled, name, weight, address}` and PUT `{name, origins}`. -/
def Cloudflare.req_present (cf : Cloudflare) (pools : List Pool) (putResp : Json) :
    List HttpRequest × Except ModuleError Json :=
  match cf.req_pool_info pools with
  | none => ([cf.getRequest], Except.error ModuleError.nullAttributeFault)
  | some current_state =>
      let current_pool_name := current_state.name
      let origins := current_state.origins
      match cf.get_origin_by_ip origins with
      | some _ =>
          ([cf.getRequest],
            Except.error (ModuleError.cloudflareExc
              "Origin requested to be present already exists"))
      | none =>
          let new_origin : Origin :=
            { enabled := true, name := cf.instance_name,
              weight := cf.instance_weight, address := cf.instance_ip }
          let desired_state := desiredStateJson current_pool_name (origins ++ [new_origin])
          ([cf.getRequest, cf.putRequest desired_state], Except.ok putResp)

/-- `req_absent`.  Fetch the pool (GET; missing pool is the null-attribute
fault as above).  Filter out every origin whose address equals
`instance_ip`; if at most one origin remains, raise the minimum-origins
`CloudflareException` — no PUT.  Otherwise PUT `{name, origins}` with the
filtered list. -/
def Cloudflare.req_absent (cf : Cloudflare) (pools : List Pool) (putResp : Json) :
    List HttpRequest × Except ModuleError Json :=
  match cf.req_pool_info pools with
  | none => ([cf.getRequest], Except.error ModuleError.nullAttributeFault)
  | some current_state =>
      let desired_origins_state :=
        current_state.origins.filter (fun i => i.address != cf.instance_ip)
      if desired_origins_state.length ≤ 1 then
        ([cf.getRequest],
          Except.error (ModuleError.cloudflareExc
            "Cloudflare requires origin to contain at least one entry"))
      else
        ([cf.getRequest,
          cf.putRequest (desiredStateJson current_state.name desired_origins_state)],
          Except.ok putResp)

/-- The registrar's module parameters (`argument_spec`). -/
structure ModuleParams where
  account_id : String
  pool_id : String
  email : String
  api_key : String
  state : String
  instance_ip : String
  instance_name : String
  instance_weight : Rat
  wait : Bool

/-- The `Cloudflare(...)` construction at the head of
`cloudflare_account_instance`. -/
def mkCf (params : ModuleParams) : Cloudflare :=
  Cloudflare.init params.email params.api_key params.account_id params.pool_id
    params.state params.instance_ip params.instance_name params.instance_weight
    params.wait

/-- `cloudflare_account_instance(module)`: dispatch on `state`, run the
transition, and on success `exit_json(changed=True, response=resp)`.
The trailing `fail_json` of the source is the unreachable third branch
(`state` is constrained to the two choices by the argument spec). -/
def cloudflare_account_instance (params : ModuleParams) (pools : List Pool)
    (putResp : Json) : List HttpRequest × Except ModuleError ExitJson :=
  let cloudflare := mkCf params
  let state := params.state
  if state = "present" then
    let r := cloudflare.req_present pools putResp
    (r.1, r.2.map (fun resp => { changed := true, response := resp }))
  else if state = "absent" then
    let r := cloudflare.req_absent pools putResp
    (r.1, r.2.map (fun resp => { changed := true, response := resp }))
  else
    ([], Except.error (ModuleError.failJson
      "Unknown value \"\x7b0\x7d\" for argument state. Expected one of: present, absent."))

/-- Python dict `.get(key)`: the value under the key, `none` when absent or
when the value is not an object. -/
def dictGet (j : Json) (k : String) : Option Json :=
  match j with
  | Json.obj fields => (fields.find? (fun f => f.1 == k)).map (fun f => f.2)
  | _ => none

namespace LbInfo

/-- The lister's `Cloudflare.__init__`: credentials plus the collection URL. -/
structure Cloudflare where
  url : String
  email : String
  api_key : String

def Cloudflare.init (email api_key account_id : String) : Cloudflare :=
  { url := "https://api.cloudflare.com/client/v4/accounts/" ++ account_id ++
      "/load_balancers/pools"
    email := email
    api_key := api_key }

/-- The lister's `request`: one request of the given method against the
collection URL, no body; returns the parsed response (`resp`, the server's
answer, is a parameter of the model). -/
def Cloudflare.request (cf : Cloudflare) (method : HttpMethod) (resp : Json) :
    List HttpRequest × Json :=
  ([{ method := method, url := cf.url, body := none }], resp)

/-- `rec_info`: a single GET. -/
def Cloudflare.rec_info (cf : Cloudflare) (resp : Json) :
    List HttpRequest × Json :=
  cf.request HttpMethod.GET resp

/-- `cloudflare_account_lb` followed by
`module.exit_json(clbs=request.get('result'))`: the requests issued and the
value published under `clbs`. -/
def lb_main (account_id email api_key : String) (resp : Json) :
    List HttpRequest × Option Json :=
  let cloudflare := Cloudflare.init email api_key account_id
  let r := cloudflare.rec_info resp
  (r.1, dictGet r.2 "result")

end LbInfo

/-! Concrete fixtures used by counterexamples and witnesses. -/

def o1 : Origin :=
  { enabled := true, name := "server1", weight := 1, address := "10.0.0.1" }

def o2 : Origin :=
  { enabled := true, name := "server2", weight := 1, address := "10.0.0.2" }

def o3 : Origin :=
  { enabled := true, name := "server3", weight := 1, address := "10.0.0.3" }

def mkPool (pid : String) (origins : List Origin) : Pool :=
  { id := pid, name := "pool-" ++ pid, origins := origins, enabled := true,
    minimum_origins := 1, check_regions := ["WNAM"], notification_email := "",
    created_on := "1814-05-17T09:46:07.281116Z",
    modified_on := "1914-05-17T12:34:31.398522Z", description := "" }

def baseParams : ModuleParams :=
  { account_id := "acct1", pool_id := "pool1", email := "joe@example.com",
    api_key := "key", state := "present", instance_ip := "10.0.0.9",
    instance_name := "server9", instance_weight := 1, wait := false }

/-- `absent` run aimed at the address of `o1`. -/
def absentParamsHitO1 : ModuleParams :=
  { baseParams with state := "absent", instance_ip := "10.0.0.1" }

/-- `absent` run aimed at the address of `o2`. -/
def absentParamsHitO2 : ModuleParams :=
  { baseParams with state := "absent", instance_ip := "10.0.0.2" }

/-- `absent` run whose address matches no fixture origin. -/
def absentParamsMiss : ModuleParams :=
  { baseParams with state := "absent" }

/-! Projections of the constructed client, used to line claim statements
(written over `ModuleParams`) up with the definition bodies. -/

@[simp] lemma mkCf_pool_id (params : ModuleParams) :
    (mkCf params).pool_id = params.pool_id := rfl

@[simp] lemma mkCf_instance_ip (params : ModuleParams) :
    (mkCf params).instance_ip = params.instance_ip := rfl

@[simp] lemma mkCf_instance_name (params : ModuleParams) :
    (mkCf params).instance_name = params.instance_name := rfl

@[simp] lemma mkCf_instance_weight (params : ModuleParams) :
    (mkCf params).instance_weight = params.instance_weight := rfl

/-- Dispatch: with `state = "present"` the module runs `req_present` and
wraps a success into `exit_json(changed=True, response=resp)`. -/
lemma run_present (params : ModuleParams) (pools : List Pool) (putResp : Json)
    (hstate : params.state = "present") :
    cloudflare_account_instance params pools putResp =
      (((mkCf params).req_present pools putResp).1,
        ((mkCf params).req_present pools putResp).2.map
          (fun resp => { changed := true, response := resp })) := by
  simp only [cloudflare_account_instance, hstate, reduceIte]

/-- Dispatch: with `state = "absent"` the module runs `req_absent`. -/
lemma run_absent (params : ModuleParams) (pools : List Pool) (putResp : Json)
    (hstate : params.state = "absent") :
    cloudflare_account_instance params pools putResp =
      (((mkCf params).req_absent pools putResp).1,
        ((mkCf params).req_absent pools putResp).2.map
          (fun resp => { changed := true, response := resp })) := by
  simp only [cloudflare_account_instance, hstate, String.reduceEq, reduceIte]

/-- C1: against a pool collection that holds no pool with the requested
`pool_id`, both the `present` and the `absent` run terminate with the
null-attribute fault (`AttributeError` from `None.get('name')` in the
source), not with an explicit "pool not found" error: the code contradicts
the spec's stated intent of promoting the missing-pool lookup to an
explicit fatal error. -/
theorem missing_pool_yields_null_attribute_fault :
    (cloudflare_account_instance { baseParams with pool_id := "missing" }
        [mkPool "pool1" [o1, o2]] Json.null).2
      = Except.error ModuleError.nullAttributeFault ∧
    (cloudflare_account_instance
        { baseParams with pool_id := "missing", state := "absent" }
        [mkPool "pool1" [o1, o2]] Json.null).2
      = Except.error ModuleError.nullAttributeFault :=
  ⟨rfl, rfl⟩

/-- Helper for C2: `req_present` on a pool already holding an origin with
the requested address raises the duplicate error after the single GET. -/
lemma req_present_duplicate (cf : Cloudflare) (pools : List Pool)
    (putResp : Json) (p : Pool) (o : Origin)
    (hp : cf.req_pool_info pools = some p)
    (ho : o ∈ p.origins) (ha : o.address = cf.instance_ip) :
    cf.req_present pools putResp =
      ([cf.getRequest],
        Except.error (ModuleError.cloudflareExc
          "Origin requested to be present already exists")) := by
  have hsome : (cf.get_origin_by_ip p.origins).isSome := by
    rw [Cloudflare.get_origin_by_ip, List.find?_isSome]
    exact ⟨o, ho, by simp [ha]⟩
  obtain ⟨y, hy⟩ := Option.isSome_iff_exists.mp hsome
  unfold Cloudflare.req_present
  rw [hp]
  simp only [hy]

/-- C2: when some origin of the fetched pool has `address = instance_ip`,
requesting `present` fails with the fixed duplicate-origin error and the
request trace is the single GET — no PUT reaches the pool, so its remote
state is untouched. -/
theorem present_duplicate_origin_fails_without_put
    (params : ModuleParams) (pools : List Pool) (putResp : Json)
    (p : Pool) (o : Origin)
    (hstate : params.state = "present")
    (hp : (mkCf params).req_pool_info pools = some p)
    (ho : o ∈ p.origins) (ha : o.address = params.instance_ip) :
    cloudflare_account_instance params pools putResp =
      ([(mkCf params).getRequest],
        Except.error (ModuleError.cloudflareExc
          "Origin requested to be present already exists")) := by
  rw [run_present params pools putResp hstate,
    req_present_duplicate (mkCf params) pools putResp p o hp ho ha]
  rfl

/-- Witness for C2 at the pool `[o1, o2]` with `instance_ip` the address of
`o1`. -/
theorem present_duplicate_origin_fails_without_put_witness :
    cloudflare_account_instance { baseParams with instance_ip := "10.0.0.1" }
        [mkPool "pool1" [o1, o2]] Json.null =
      ([(mkCf { baseParams with instance_ip := "10.0.0.1" }).getRequest],
        Except.error (ModuleError.cloudflareExc
          "Origin requested to be present already exists")) :=
  present_duplicate_origin_fails_without_put _ [mkPool "pool1" [o1, o2]]
    Json.null (mkPool "pool1" [o1, o2]) o1 rfl rfl (List.Mem.head _) rfl

/-- C3: with the pool found, the `absent` run ends in the fixed
minimum-origins error with a GET-only trace (no PUT) exactly when the
origin list filtered of every origin whose address equals `instance_ip`
has length at most 1 — the source's `len(desired_origins_state) <= 1`
boundary, which also rejects a legitimate removal that would leave one
origin. -/
theorem absent_min_origins_error_iff_post_filter_le_one
    (params : ModuleParams) (pools : List Pool) (putResp : Json) (p : Pool)
    (hstate : params.state = "absent")
    (hp : (mkCf params).req_pool_info pools = some p) :
    (cloudflare_account_instance params pools putResp =
        ([(mkCf params).getRequest],
          Except.error (ModuleError.cloudflareExc
            "Cloudflare requires origin to contain at least one entry")))
      ↔ (p.origins.filter (fun i => i.address != params.instance_ip)).length ≤ 1 := by
  rw [run_absent params pools putResp hstate]
  unfold Cloudflare.req_absent
  rw [hp]
  simp only [mkCf_instance_ip]
  by_cases h : (p.origins.filter (fun i => i.address != params.instance_ip)).length ≤ 1
  · rw [if_pos h]
    exact iff_of_true rfl h
  · rw [if_neg h]
    refine iff_of_false (fun hcontra => ?_) h
    have := congrArg Prod.fst hcontra
    simp at this

/-- Witness for C3 at a two-origin pool with distinct addresses, removing
the first: the post-filter length is 1, so the run fails without a PUT. -/
theorem absent_min_origins_error_iff_post_filter_le_one_witness :
    cloudflare_account_instance absentParamsHitO1
        [mkPool "pool1" [o1, o2]] Json.null =
      ([(mkCf absentParamsHitO1).getRequest],
        Except.error (ModuleError.cloudflareExc
          "Cloudflare requires origin to contain at least one entry")) :=
  (absent_min_origins_error_iff_post_filter_le_one absentParamsHitO1
    [mkPool "pool1" [o1, o2]] Json.null (mkPool "pool1" [o1, o2])
    rfl rfl).mpr (by decide)

/-- C4: with the pool found and no origin carrying `instance_ip`, the
`present` run issues the GET and then a PUT whose `origins` value is the
fetched list in order with the single new origin
`{enabled: true, name: instance_name, weight: instance_weight,
address: instance_ip}` appended last, and succeeds. -/
theorem present_appends_new_origin_last
    (params : ModuleParams) (pools : List Pool) (putResp : Json) (p : Pool)
    (hstate : params.state = "present")
    (hp : (mkCf params).req_pool_info pools = some p)
    (hno : ∀ o ∈ p.origins, o.address ≠ params.instance_ip) :
    cloudflare_account_instance params pools putResp =
      ([(mkCf params).getRequest,
        (mkCf params).putRequest (desiredStateJson p.name (p.origins ++
          [{ enabled := true, name := params.instance_name,
             weight := params.instance_weight,
             address := params.instance_ip }]))],
        Except.ok { changed := true, response := putResp }) := by
  have hnone : (mkCf params).get_origin_by_ip p.origins = none := by
    rw [Cloudflare.get_origin_by_ip, List.find?_eq_none]
    intro x hx
    simp only [mkCf_instance_ip, beq_iff_eq]
    exact hno x hx
  rw [run_present params pools putResp hstate]
  unfold Cloudflare.req_present
  rw [hp]
  simp only [hnone, mkCf_instance_name, mkCf_instance_weight, mkCf_instance_ip]
  rfl

/-- Witness for C4: pool `[o1, o2]`, fresh address `10.0.0.9`; the PUT
carries `[o1, o2, new]`. -/
theorem present_appends_new_origin_last_witness :
    cloudflare_account_instance baseParams [mkPool "pool1" [o1, o2]]
        Json.null =
      ([(mkCf baseParams).getRequest,
        (mkCf baseParams).putRequest (desiredStateJson "pool-pool1"
          [o1, o2,
           { enabled := true, name := "server9", weight := 1,
             address := "10.0.0.9" }])],
        Except.ok { changed := true, response := Json.null }) :=
  present_appends_new_origin_last baseParams [mkPool "pool1" [o1, o2]]
    Json.null (mkPool "pool1" [o1, o2]) rfl rfl (by decide)

/-- C5: with the pool found and at least two origins surviving the filter,
the `absent` run issues the GET and then a PUT whose `origins` value is the
fetched list with every origin of address `instance_ip` removed, the
survivors in their original order, and succeeds. -/
theorem absent_puts_filtered_origins
    (params : ModuleParams) (pools : List Pool) (putResp : Json) (p : Pool)
    (hstate : params.state = "absent")
    (hp : (mkCf params).req_pool_info pools = some p)
    (hlen : 2 ≤
      (p.origins.filter (fun i => i.address != params.instance_ip)).length) :
    cloudflare_account_instance params pools putResp =
      ([(mkCf params).getRequest,
        (mkCf params).putRequest (desiredStateJson p.name
          (p.origins.filter (fun i => i.address != params.instance_ip)))],
        Except.ok { changed := true, response := putResp }) := by
  rw [run_absent params pools putResp hstate]
  unfold Cloudflare.req_absent
  rw [hp]
  simp only [mkCf_instance_ip]
  rw [if_neg (by omega)]
  rfl

/-- Witness for C5: three origins, removing the middle address leaves
`[o1, o3]` in the PUT. -/
theorem absent_puts_filtered_origins_witness :
    cloudflare_account_instance absentParamsHitO2
        [mkPool "pool1" [o1, o2, o3]] Json.null =
      ([(mkCf absentParamsHitO2).getRequest,
        (mkCf absentParamsHitO2).putRequest
          (desiredStateJson "pool-pool1" [o1, o3])],
        Except.ok { changed := true, response := Json.null }) :=
  absent_puts_filtered_origins absentParamsHitO2 [mkPool "pool1" [o1, o2, o3]]
    Json.null (mkPool "pool1" [o1, o2, o3]) rfl rfl (by decide)

/-- C6: the Pool Lister issues exactly one request — a GET against the
account's pool collection URL, with no body — and publishes under `clbs`
the `result` array of the response body verbatim: every pool object of the
array, unmodified and unfiltered. -/
theorem lister_one_get_returns_result_verbatim
    (account_id email api_key : String) (resp : Json) (poolObjs : List Json)
    (hres : dictGet resp "result" = some (Json.arr poolObjs)) :
    LbInfo.lb_main account_id email api_key resp =
      ([{ method := HttpMethod.GET,
          url := "https://api.cloudflare.com/client/v4/accounts/" ++
            account_id ++ "/load_balancers/pools",
          body := none }],
        some (Json.arr poolObjs)) := by
  unfold LbInfo.lb_main LbInfo.Cloudflare.rec_info LbInfo.Cloudflare.request
  simp only [hres]
  rfl

/-- Witness for C6: a response holding two pool objects comes back whole. -/
theorem lister_one_get_returns_result_verbatim_witness :
    LbInfo.lb_main "acct1" "joe@example.com" "key"
        (Json.obj [("success", Json.bool true),
          ("result", Json.arr [Json.str "poolA", Json.str "poolB"])]) =
      ([{ method := HttpMethod.GET,
          url := "https://api.cloudflare.com/client/v4/accounts/" ++
            "acct1" ++ "/load_balancers/pools",
          body := none }],
        some (Json.arr [Json.str "poolA", Json.str "poolB"])) :=
  lister_one_get_returns_result_verbatim "acct1" "joe@example.com" "key"
    (Json.obj [("success", Json.bool true),
      ("result", Json.arr [Json.str "poolA", Json.str "poolB"])])
    [Json.str "poolA", Json.str "poolB"] rfl

/-- Helper for C7: mapping a success into `exit_json` always sets
`changed := true`. -/
lemma changed_of_map_ok (e : Except ModuleError Json) (r : ExitJson)
    (h : e.map (fun resp => ({ changed := true, response := resp } : ExitJson))
      = Except.ok r) :
    r.changed = true := by
  cases e with
  | error err => simp [Except.map] at h
  | ok v =>
      simp only [Except.map, Except.ok.injEq] at h
      rw [← h]

/-- C7: whenever a registrar run terminates successfully (state `present`
or `absent`), the published `changed` flag is `true` — the module never
compares the pre and post state. -/
theorem registrar_success_reports_changed
    (params : ModuleParams) (pools : List Pool) (putResp : Json) (r : ExitJson)
    (h : (cloudflare_account_instance params pools putResp).2 = Except.ok r) :
    r.changed = true := by
  unfold cloudflare_account_instance at h
  by_cases h1 : params.state = "present"
  · rw [if_pos h1] at h
    exact changed_of_map_ok _ r h
  · rw [if_neg h1] at h
    by_cases h2 : params.state = "absent"
    · rw [if_pos h2] at h
      exact changed_of_map_ok _ r h
    · rw [if_neg h2] at h
      simp at h

/-- Witness for C7 at a successful `present` run. -/
theorem registrar_success_reports_changed_witness :
    ExitJson.changed { changed := true, response := Json.null } = true :=
  registrar_success_reports_changed baseParams [mkPool "pool1" [o1, o2]]
    Json.null { changed := true, response := Json.null } rfl

/-- C8: two registrar invocations whose parameters differ only in `wait`
issue the same request sequence and produce the same result: `wait` is
stored by the constructor and never read. -/
theorem wait_has_no_effect
    (params : ModuleParams) (w : Bool) (pools : List Pool) (putResp : Json) :
    cloudflare_account_instance { params with wait := w } pools putResp =
      cloudflare_account_instance params pools putResp := by
  cases params
  rfl

/-- C10: with the pool found, at least two origins, and none of their
addresses equal to `instance_ip`, the `absent` run does not fail: the
filter removes nothing, the PUT carries the fetched origin list unchanged,
and the run reports `changed = true`. -/
theorem absent_without_match_puts_unchanged
    (params : ModuleParams) (pools : List Pool) (putResp : Json) (p : Pool)
    (hstate : params.state = "absent")
    (hp : (mkCf params).req_pool_info pools = some p)
    (hlen : 2 ≤ p.origins.length)
    (hno : ∀ o ∈ p.origins, o.address ≠ params.instance_ip) :
    cloudflare_account_instance params pools putResp =
      ([(mkCf params).getRequest,
        (mkCf params).putRequest (desiredStateJson p.name p.origins)],
        Except.ok { changed := true, response := putResp }) := by
  have hfilter :
      p.origins.filter (fun i => i.address != params.instance_ip) =
        p.origins := by
    rw [List.filter_eq_self]
    intro a ha
    simp only [bne_iff_ne, ne_eq]
    exact hno a ha
  have h := absent_puts_filtered_origins params pools putResp p hstate hp
    (by rw [hfilter]; exact hlen)
  rw [hfilter] at h
  exact h

/-- Witness for C10: two origins, neither at the requested address; the PUT
repeats `[o1, o2]`. -/
theorem absent_without_match_puts_unchanged_witness :
    cloudflare_account_instance absentParamsMiss [mkPool "pool1" [o1, o2]]
        Json.null =
      ([(mkCf absentParamsMiss).getRequest,
        (mkCf absentParamsMiss).putRequest
          (desiredStateJson "pool-pool1" [o1, o2])],
        Except.ok { changed := true, response := Json.null }) :=
  absent_without_match_puts_unchanged absentParamsMiss
    [mkPool "pool1" [o1, o2]] Json.null (mkPool "pool1" [o1, o2])
    rfl rfl (by decide) (by decide)

/-! Trace shape helpers for the frame claim: each transition issues either
the GET alone or the GET followed by one PUT of `desiredStateJson`. -/

lemma req_present_trace_cases (cf : Cloudflare) (pools : List Pool)
    (putResp : Json) :
    (cf.req_present pools putResp).1 = [cf.getRequest] ∨
    ∃ p, ∃ os : List Origin, cf.req_pool_info pools = some p ∧
      (cf.req_present pools putResp).1 =
        [cf.getRequest, cf.putRequest (desiredStateJson p.name os)] := by
  unfold Cloudflare.req_present
  cases hpool : cf.req_pool_info pools with
  | none => exact Or.inl rfl
  | some p =>
      cases horig : cf.get_origin_by_ip p.origins with
      | some y => exact Or.inl (by simp [horig])
      | none =>
          refine Or.inr ⟨p, p.origins ++
            [{ enabled := true, name := cf.instance_name,
               weight := cf.instance_weight, address := cf.instance_ip }],
            rfl, ?_⟩
          simp [horig]

lemma req_absent_trace_cases (cf : Cloudflare) (pools : List Pool)
    (putResp : Json) :
    (cf.req_absent pools putResp).1 = [cf.getRequest] ∨
    ∃ p, ∃ os : List Origin, cf.req_pool_info pools = some p ∧
      (cf.req_absent pools putResp).1 =
        [cf.getRequest, cf.putRequest (desiredStateJson p.name os)] := by
  unfold Cloudflare.req_absent
  cases hpool : cf.req_pool_info pools with
  | none => exact Or.inl rfl
  | some p =>
      by_cases hlen :
          (p.origins.filter (fun i => i.address != cf.instance_ip)).length ≤ 1
      · exact Or.inl (by simp [hlen])
      · exact Or.inr ⟨p,
          p.origins.filter (fun i => i.address != cf.instance_ip),
          rfl, by simp [hlen]⟩

lemma trace_of_run_present (params : ModuleParams) (pools : List Pool)
    (putResp : Json) (hstate : params.state = "present") :
    (cloudflare_account_instance params pools putResp).1 =
      ((mkCf params).req_present pools putResp).1 := by
  rw [run_present params pools putResp hstate]

lemma trace_of_run_absent (params : ModuleParams) (pools : List Pool)
    (putResp : Json) (hstate : params.state = "absent") :
    (cloudflare_account_instance params pools putResp).1 =
      ((mkCf params).req_absent pools putResp).1 := by
  rw [run_absent params pools putResp hstate]

lemma getRequest_method_ne_put (cf : Cloudflare) :
    (cf.getRequest).method ≠ HttpMethod.PUT := by
  simp [Cloudflare.getRequest]

/-- C9: any PUT issued by a registrar run (`present` or `absent`) has a
body that is exactly the two-key object
`{"name": <fetched pool's name>, "origins": <mutated list>}` — no other
pool field (enabled, minimum_origins, check_regions, notification_email,
timestamps) occurs in the write payload. -/
theorem put_body_holds_only_name_and_origins
    (params : ModuleParams) (pools : List Pool) (putResp : Json)
    (req : HttpRequest)
    (hmem : req ∈ (cloudflare_account_instance params pools putResp).1)
    (hput : req.method = HttpMethod.PUT) :
    ∃ p, ∃ os : List Origin, (mkCf params).req_pool_info pools = some p ∧
      req.body = some (Json.obj [("name", Json.str p.name),
        ("origins", Json.arr (os.map Origin.toJson))]) := by
  have shape :
      ∀ tr, tr = [(mkCf params).getRequest] ∨
        (∃ p, ∃ os : List Origin, (mkCf params).req_pool_info pools = some p ∧
          tr = [(mkCf params).getRequest,
            (mkCf params).putRequest (desiredStateJson p.name os)]) →
        req ∈ tr →
        ∃ p, ∃ os : List Origin, (mkCf params).req_pool_info pools = some p ∧
          req.body = some (Json.obj [("name", Json.str p.name),
            ("origins", Json.arr (os.map Origin.toJson))]) := by
    rintro tr (h | ⟨p, os, hp, h⟩) hmem2
    · rw [h] at hmem2
      simp only [List.mem_singleton] at hmem2
      rw [hmem2] at hput
      exact absurd hput (getRequest_method_ne_put _)
    · rw [h] at hmem2
      simp only [List.mem_cons, List.mem_singleton, List.not_mem_nil,
        or_false] at hmem2
      cases hmem2 with
      | inl hg =>
          rw [hg] at hput
          exact absurd hput (getRequest_method_ne_put _)
      | inr hq => exact ⟨p, os, hp, by rw [hq]; rfl⟩
  by_cases h1 : params.state = "present"
  · rw [trace_of_run_present params pools putResp h1] at hmem
    exact shape _ (req_present_trace_cases (mkCf params) pools putResp) hmem
  · by_cases h2 : params.state = "absent"
    · rw [trace_of_run_absent params pools putResp h2] at hmem
      exact shape _ (req_absent_trace_cases (mkCf params) pools putResp) hmem
    · have : (cloudflare_account_instance params pools putResp).1 = [] := by
        unfold cloudflare_account_instance
        rw [if_neg h1, if_neg h2]
      rw [this] at hmem
      exact absurd hmem (List.not_mem_nil req)

/-- The origin the `baseParams` run registers. -/
def newOrigin9 : Origin :=
  { enabled := true, name := "server9", weight := 1, address := "10.0.0.9" }

/-- Witness for C9: the PUT of the successful `present` run on `[o1, o2]`
carries exactly the keys `name` and `origins`. -/
theorem put_body_holds_only_name_and_origins_witness :
    ∃ p, ∃ os : List Origin,
      (mkCf baseParams).req_pool_info [mkPool "pool1" [o1, o2]] = some p ∧
      ((mkCf baseParams).putRequest
          (desiredStateJson "pool-pool1" [o1, o2, newOrigin9])).body =
        some (Json.obj [("name", Json.str p.name),
          ("origins", Json.arr (os.map Origin.toJson))]) :=
  put_body_holds_only_name_and_origins baseParams [mkPool "pool1" [o1, o2]]
    Json.null _ (List.Mem.tail _ (List.Mem.head _)) rfl

end CloudflareModules
